import Mathlib

/-!
# Verification of the gameroom application authorization handler

A shallow embedding of `src/src/authorization_handler/mod.rs` (the
event-ingestion and connection-lifecycle subsystem of the gameroom
daemon).  Pure Rust functions become Lean functions; the shared mutable
state of the read loop and the worker threads becomes explicit state
passing; `SystemTime` values are modelled as natural numbers (an oracle
clock supplied at each `SystemTime::now()` call site); Rust byte slices
are `List Nat`; fallible Rust code returns `Except`.

The persistence helpers live in the `gameroom_database` crate, which is
not part of the two source files; their semantics are modelled from the
spec's persistence-boundary description (§6) and marked as such below.
-/

set_option autoImplicit false

deriving instance DecidableEq for Except

namespace Gameroom

/-! ## Data model (mirrors `gameroom_database::models` and
`libsplinter::admin::messages` as used by the handler) -/

/-- Mirrors `models::CircuitProposal`, the persisted proposal row.  `SystemTime`
fields are modelled as `Nat`; the `Debug`-formatted enum fields
(`proposal_type`, `authorization_type`, `persistence`, `routes`) are
carried as the strings the Rust code stores. -/
structure CircuitProposal where
  id : String
  proposal_type : String
  circuit_id : String
  circuit_hash : String
  requester : String
  authorization_type : String
  persistence : String
  routes : String
  circuit_management_type : String
  application_metadata : List Nat
  status : String
  created_time : Nat
  updated_time : Nat
  deriving DecidableEq, Repr

/-- Mirrors the `models::NewCircuitService` row. -/
structure NewCircuitService where
  proposal_id : String
  service_id : String
  service_type : String
  allowed_nodes : List String
  deriving DecidableEq, Repr

/-- Mirrors the `models::NewCircuitMember` row. -/
structure NewCircuitMember where
  proposal_id : String
  node_id : String
  endpoint : String
  deriving DecidableEq, Repr

/-- Mirrors the `models::NewProposalVoteRecord` row.  A Rust `String` is a UTF-8
validated byte vector; the `voter_public_key` column is modelled by its
bytes. -/
structure NewProposalVoteRecord where
  proposal_id : String
  voter_public_key : List Nat
  vote : String
  created_time : Nat
  deriving DecidableEq, Repr

/-- Mirrors `messages::SplinterService`. -/
structure SplinterService where
  service_id : String
  service_type : String
  allowed_nodes : List String
  deriving DecidableEq, Repr

/-- Mirrors `messages::SplinterNode`. -/
structure SplinterNode where
  node_id : String
  endpoint : String
  deriving DecidableEq, Repr

/-- Mirrors `messages::Vote` (the ballot value). -/
inductive Vote where
  | Accept
  | Reject
  deriving DecidableEq, Repr

/-- The Rust `format!("{:?}", vote)` rendering of a `Vote`. -/
def vote_debug : Vote → String
  | .Accept => "Accept"
  | .Reject => "Reject"

/-- Mirrors `messages::Ballot`. -/
structure Ballot where
  circuit_id : String
  circuit_hash : String
  vote : Vote
  deriving DecidableEq, Repr

/-- Mirrors `messages::CircuitProposalVote` (a cast ballot as received from the
network); the signature and signer key are byte vectors. -/
structure CircuitProposalVote where
  ballot : Ballot
  ballot_signature : List Nat
  signer_public_key : List Nat
  deriving DecidableEq, Repr

/-- Mirrors `messages::CreateCircuit` as consumed by the handler.  The
`Debug`-formatted enum fields are carried as their rendered strings. -/
structure CreateCircuit where
  circuit_id : String
  roster : List SplinterService
  members : List SplinterNode
  authorization_type : String
  persistence : String
  routes : String
  circuit_management_type : String
  application_metadata : List Nat
  deriving DecidableEq, Repr

/-- Mirrors `messages::CircuitProposal` (the wire-side proposal message). -/
structure MsgCircuitProposal where
  proposal_type : String
  circuit_id : String
  circuit_hash : String
  circuit : CreateCircuit
  votes : List CircuitProposalVote
  requester : String
  deriving DecidableEq, Repr

/-- Mirrors `messages::AdminServiceEvent`, the tagged union of admin events. -/
inductive AdminServiceEvent where
  | ProposalSubmitted (msg : MsgCircuitProposal)
  | ProposalVote (msg : CircuitProposalVote)
  | ProposalAccepted (msg : MsgCircuitProposal)
  | ProposalRejected (msg : MsgCircuitProposal)
  deriving DecidableEq, Repr

/-- Mirrors `error::AppAuthHandlerError`.  The `error` module is not among the
two source files; the variants are those the handler constructs plus the
`From` conversions it relies on (`serde_json::Error`, `FromUtf8Error`,
`std::io::Error`, pool errors). -/
inductive AppAuthHandlerError where
  | StartUpError (msg : String)
  | ShutdownError (msg : String)
  | RequestError (msg : String)
  | SubmitVoteError (msg : String)
  | ClientError (msg : String)
  | InvalidMessageError (msg : String)
  | DatabaseError (msg : String)
  | SerdeError (msg : String)
  | Utf8Error
  | IoError (msg : String)
  deriving DecidableEq, Repr

/-! ## UTF-8 validity (Rust `String::from_utf8`)

`String::from_utf8(bytes)` succeeds exactly when `bytes` is valid UTF-8
(RFC 3629: no overlong encodings, no surrogates, max `U+10FFFF`) and
returns the same bytes.  We model a Rust `String` by its bytes, so the
conversion returns the input bytes on success. -/

/-- Is `b` a UTF-8 continuation byte (`0x80..=0xBF`)? -/
def utf8_cont (b : Nat) : Bool := 0x80 ≤ b && b ≤ 0xBF

/-- UTF-8 validity of a byte list, following the byte-range table used
by Rust's `core::str` validation. -/
def utf8_valid : List Nat → Bool
  | [] => true
  | b0 :: t0 =>
    if b0 ≤ 0x7F then utf8_valid t0
    else if 0xC2 ≤ b0 && b0 ≤ 0xDF then
      match t0 with
      | b1 :: t1 => utf8_cont b1 && utf8_valid t1
      | _ => false
    else if b0 = 0xE0 then
      match t0 with
      | b1 :: b2 :: t2 => (0xA0 ≤ b1 && b1 ≤ 0xBF) && utf8_cont b2 && utf8_valid t2
      | _ => false
    else if 0xE1 ≤ b0 && b0 ≤ 0xEC then
      match t0 with
      | b1 :: b2 :: t2 => utf8_cont b1 && utf8_cont b2 && utf8_valid t2
      | _ => false
    else if b0 = 0xED then
      match t0 with
      | b1 :: b2 :: t2 => (0x80 ≤ b1 && b1 ≤ 0x9F) && utf8_cont b2 && utf8_valid t2
      | _ => false
    else if 0xEE ≤ b0 && b0 ≤ 0xEF then
      match t0 with
      | b1 :: b2 :: t2 => utf8_cont b1 && utf8_cont b2 && utf8_valid t2
      | _ => false
    else if b0 = 0xF0 then
      match t0 with
      | b1 :: b2 :: b3 :: t3 =>
          (0x90 ≤ b1 && b1 ≤ 0xBF) && utf8_cont b2 && utf8_cont b3 && utf8_valid t3
      | _ => false
    else if 0xF1 ≤ b0 && b0 ≤ 0xF3 then
      match t0 with
      | b1 :: b2 :: b3 :: t3 =>
          utf8_cont b1 && utf8_cont b2 && utf8_cont b3 && utf8_valid t3
      | _ => false
    else if b0 = 0xF4 then
      match t0 with
      | b1 :: b2 :: b3 :: t3 =>
          (0x80 ≤ b1 && b1 ≤ 0x8F) && utf8_cont b2 && utf8_cont b3 && utf8_valid t3
      | _ => false
    else false

/-- Rust `String::from_utf8`: returns the same bytes when they are valid
UTF-8, fails otherwise (a `FromUtf8Error`, converted by `?` into
`AppAuthHandlerError.Utf8Error`). -/
def string_from_utf8 (bytes : List Nat) : Option (List Nat) :=
  if utf8_valid bytes then some bytes else none

/-! ## Proposal store

The four tables of the gameroom database that the handler touches, plus
a trace of the write operations issued (in issue order) so that ordering
claims about a transaction's writes can be stated. -/

/-- The store: the four tables consumed through the helper interface. -/
structure Database where
  proposals : List CircuitProposal
  members : List NewCircuitMember
  services : List NewCircuitService
  votes : List NewProposalVoteRecord
  deriving DecidableEq, Repr

/-- One write operation issued against the store. -/
inductive WriteOp where
  | insertProposal (p : CircuitProposal)
  | insertServices (rows : List NewCircuitService)
  | insertMembers (rows : List NewCircuitMember)
  | insertVotes (rows : List NewProposalVoteRecord)
  | updateStatus (id : String) (time : Nat) (status : String)
  deriving DecidableEq, Repr

/-- Store state threaded through a sequence of helper calls: the tables
plus the ordered trace of writes issued so far. -/
structure DbState where
  db : Database
  trace : List WriteOp
  deriving DecidableEq, Repr

/-- Modelled from the spec: `helpers::insert_circuit_proposal` of the
`gameroom_database` crate (absent from src/), the persistence-boundary
operation `insert_proposal(tx, proposal)` — appends one proposal row. -/
def insert_circuit_proposal (st : DbState) (p : CircuitProposal) : DbState :=
  { db := { st.db with proposals := st.db.proposals ++ [p] },
    trace := st.trace ++ [.insertProposal p] }

/-- Modelled from the spec: `helpers::insert_circuit_service`
(`insert_services(tx, [service])`) — appends the given service rows. -/
def insert_circuit_service (st : DbState) (rows : List NewCircuitService) : DbState :=
  { db := { st.db with services := st.db.services ++ rows },
    trace := st.trace ++ [.insertServices rows] }

/-- Modelled from the spec: `helpers::insert_circuit_member`
(`insert_members(tx, [member])`) — appends the given member rows. -/
def insert_circuit_member (st : DbState) (rows : List NewCircuitMember) : DbState :=
  { db := { st.db with members := st.db.members ++ rows },
    trace := st.trace ++ [.insertMembers rows] }

/-- Modelled from the spec: `helpers::insert_proposal_vote_record`
(`insert_vote_records(tx, [vote])`) — appends the given vote rows. -/
def insert_proposal_vote_record (st : DbState) (rows : List NewProposalVoteRecord) : DbState :=
  { db := { st.db with votes := st.db.votes ++ rows },
    trace := st.trace ++ [.insertVotes rows] }

/-- Modelled from the spec: `helpers::update_circuit_proposal_status`
(`update_proposal_status(tx, id, timestamp, status)`) — sets the status
and `updated_time` of the proposal row(s) with the given `id`. -/
def update_circuit_proposal_status (st : DbState) (id : String) (time : Nat)
    (status : String) : DbState :=
  { db := { st.db with
      proposals := st.db.proposals.map fun p =>
        if p.id = id then { p with status := status, updated_time := time } else p },
    trace := st.trace ++ [.updateStatus id time status] }

/-- Modelled from the spec: `helpers::fetch_circuit_proposal_with_status`
(`fetch_proposal_by_circuit_id_and_status(circuit_id, status) ->
Option<proposal>`).  Per §9 of the spec the source fetches one row and
errors only on zero, so the model returns the first matching row. -/
def fetch_circuit_proposal_with_status (db : Database) (circuit_id : String)
    (status : String) : Option CircuitProposal :=
  (db.proposals.filter fun p =>
    decide (p.circuit_id = circuit_id) && decide (p.status = status)).head?

/-- Models `conn.transaction`: runs the body's helper calls against the store
and commits them as one unit; the trace starts empty so it records
exactly this transaction's writes. -/
def transaction (db : Database) (body : DbState → DbState) :
    Except AppAuthHandlerError Unit × Database × List WriteOp :=
  let st := body { db := db, trace := [] }
  (.ok (), st.db, st.trace)

/-! ## Event applier (`process_admin_event` and its parsers) -/

/-- Mirrors `parse_proposal`: builds the persisted proposal row from the wire
message, the locally generated id and the current time. -/
def parse_proposal (proposal : MsgCircuitProposal) (id : String)
    (timestamp : Nat) : CircuitProposal :=
  { id := id
    proposal_type := proposal.proposal_type
    circuit_id := proposal.circuit_id
    circuit_hash := proposal.circuit_hash
    requester := proposal.requester
    authorization_type := proposal.circuit.authorization_type
    persistence := proposal.circuit.persistence
    routes := proposal.circuit.routes
    circuit_management_type := proposal.circuit.circuit_management_type
    application_metadata := proposal.circuit.application_metadata
    status := "Pending"
    created_time := timestamp
    updated_time := timestamp }

/-- Mirrors `parse_splinter_services`: one service row per roster entry. -/
def parse_splinter_services (proposal_id : String)
    (splinter_services : List SplinterService) : List NewCircuitService :=
  splinter_services.map fun service =>
    { proposal_id := proposal_id
      service_id := service.service_id
      service_type := service.service_type
      allowed_nodes := service.allowed_nodes }

/-- Mirrors `parse_splinter_nodes`: one member row per declared member node. -/
def parse_splinter_nodes (proposal_id : String)
    (splinter_nodes : List SplinterNode) : List NewCircuitMember :=
  splinter_nodes.map fun node =>
    { proposal_id := proposal_id
      node_id := node.node_id
      endpoint := node.endpoint }

/-- Mirrors `get_pending_proposal_with_circuit_id`: fetches the `Pending`
proposal for the circuit id, turning a missing row into a
`DatabaseError`. -/
def get_pending_proposal_with_circuit_id (db : Database) (circuit_id : String) :
    Except AppAuthHandlerError CircuitProposal :=
  match fetch_circuit_proposal_with_status db circuit_id "Pending" with
  | some p => .ok p
  | none => .error (.DatabaseError
      ("Could not find open proposal for circuit: " ++ circuit_id))

/-- Mirrors `process_admin_event`: applies one decoded admin event to the store.
`now` is the oracle value of `SystemTime::now()` for this call and
`fresh_id` the oracle value of `Uuid::new_v4().to_string()`.  Returns
the Rust result together with the store after the call and the trace of
writes committed (empty when the event failed before writing). -/
def process_admin_event (admin_event : AdminServiceEvent) (now : Nat)
    (fresh_id : String) (db : Database) :
    Except AppAuthHandlerError Unit × Database × List WriteOp :=
  match admin_event with
  | .ProposalSubmitted msg_proposal =>
      let time := now
      let proposal_id := fresh_id
      let proposal := parse_proposal msg_proposal proposal_id time
      let services := parse_splinter_services proposal_id msg_proposal.circuit.roster
      let nodes := parse_splinter_nodes proposal_id msg_proposal.circuit.members
      transaction db fun st =>
        let st := insert_circuit_proposal st proposal
        let st := insert_circuit_service st services
        insert_circuit_member st nodes
  | .ProposalVote msg_vote =>
      match get_pending_proposal_with_circuit_id db msg_vote.ballot.circuit_id with
      | .error e => (.error e, db, [])
      | .ok proposal =>
        let time := now
        match string_from_utf8 msg_vote.signer_public_key with
        | none => (.error .Utf8Error, db, [])
        | some key =>
          let vote : NewProposalVoteRecord :=
            { proposal_id := proposal.id
              voter_public_key := key
              vote := vote_debug msg_vote.ballot.vote
              created_time := time }
          transaction db fun st =>
            let st := update_circuit_proposal_status st proposal.id time "Pending"
            insert_proposal_vote_record st [vote]
  | .ProposalAccepted msg_proposal =>
      match get_pending_proposal_with_circuit_id db msg_proposal.circuit_id with
      | .error e => (.error e, db, [])
      | .ok proposal =>
        let time := now
        let st := update_circuit_proposal_status { db := db, trace := [] }
          proposal.id time "Accepted"
        (.ok (), st.db, st.trace)
  | .ProposalRejected msg_proposal =>
      match get_pending_proposal_with_circuit_id db msg_proposal.circuit_id with
      | .error e => (.error e, db, [])
      | .ok proposal =>
        let time := now
        let st := update_circuit_proposal_status { db := db, trace := [] }
          proposal.id time "Rejected"
        (.ok (), st.db, st.trace)

/-! ## Wire frames, messages and the event codec -/

/-- Constant `INVALID_MESSAGE_THRESHOLD`: consecutive invalid messages accepted
before the client tries to reconnect. -/
def INVALID_MESSAGE_THRESHOLD : Nat := 10

/-- Constant `RECONNECT_WAIT_TIME`: seconds the manager sleeps before a
reconnect attempt. -/
def RECONNECT_WAIT_TIME : Nat := 10

/-- Mirrors the `awc::ws::CloseCode` values the handler uses. -/
inductive CloseCode where
  | Normal
  | Unsupported
  deriving DecidableEq, Repr

/-- Mirrors `awc::ws::CloseReason`. -/
structure CloseReason where
  code : CloseCode
  description : Option String
  deriving DecidableEq, Repr

/-- Mirrors `awc::ws::Message` as constructed by the handler (only close frames
are ever sent on the `Message` channel). -/
inductive Message where
  | Close (reason : Option CloseReason)
  deriving DecidableEq, Repr

/-- Mirrors `awc::ws::Frame`: the frames the read loop can receive.  `Binary`
and `Pong` fall into the source's `_` catch-all arm. -/
inductive Frame where
  | Text (msg : Option (List Nat))
  | Binary (msg : Option (List Nat))
  | Ping (msg : String)
  | Pong (msg : String)
  | Close (reason : Option CloseReason)
  deriving DecidableEq, Repr

/-- The structural JSON decoder `serde_json::from_slice::<AdminServiceEvent>`,
supplied as a parameter (the serde machinery is external to the
handler); an `Except.error` is a `serde_json::Error` rendered as its
message. -/
def SerdeDecoder : Type := List Nat → Except String AdminServiceEvent

/-- Mirrors `parse_message_bytes`: the event codec.  Rejects an empty payload
with `InvalidMessageError` (the spec's `EmptyMessage` kind); a failure
of the structural decoder is converted by `?` into the serde-error
variant (the spec's `MalformedPayload` kind).  A pure function of the
decoder and the bytes: stateless and side-effect-free by construction. -/
def parse_message_bytes (dec : SerdeDecoder) (bytes : List Nat) :
    Except AppAuthHandlerError AdminServiceEvent :=
  if bytes.isEmpty then
    .error (.InvalidMessageError "Received empty message")
  else
    match dec bytes with
    | .error e => .error (.SerdeError e)
    | .ok admin_event => .ok admin_event

/-! ## Connection session: the read loop of `prepare_request` -/

/-- The mutable state visible to one session's read loop: the local
invalid-message counter, the shared `running` and `reconnect` flags, the
`closing_sender` channel (whether it is still connected, and the
messages delivered on it so far) and the store. -/
structure SessionState where
  invalid_message_count : Nat
  running : Bool
  reconnect : Bool
  sender_connected : Bool
  sent : List Message
  db : Database
  deriving DecidableEq, Repr

/-- Outcome of one `take_while` closure invocation: `cont b` is
`future::ok(b)` (the stream continues iff `b`), `fail e` is an early
error return (the stream ends with error `e`). -/
inductive StepOutcome where
  | cont (keep_reading : Bool)
  | fail (e : AppAuthHandlerError)
  deriving DecidableEq, Repr

/-- Mirrors `handle_invalid_messages`: sets the reconnect flag and sends a close
message with an unsupported-code reason to the connection manager; on
send success it returns `future::ok(true)`. -/
def handle_invalid_messages (st : SessionState) : SessionState × StepOutcome :=
  let st := { st with reconnect := true }
  let reason : CloseReason :=
    { code := CloseCode.Unsupported
      description := some "Received too many invalid messages" }
  if st.sender_connected then
    ({ st with sent := st.sent ++ [Message.Close (some reason)] }, .cont true)
  else
    (st, .fail (.ShutdownError "Unable to send websocket close message"))

/-- One invocation of the `take_while` closure in `prepare_request` on
the next frame.  `now` and `fresh_id` are the oracle values consumed if
`process_admin_event` runs for this frame. -/
def take_while_step (dec : SerdeDecoder) (now : Nat) (fresh_id : String)
    (st : SessionState) (message : Frame) : SessionState × StepOutcome :=
  match message with
  | .Text msg =>
      let msg_bytes := msg.getD []
      match parse_message_bytes dec msg_bytes with
      | .ok admin_event =>
          let st := { st with invalid_message_count := 0 }
          match process_admin_event admin_event now fresh_id st.db with
          | (.error err, db', _) => ({ st with db := db' }, .fail err)
          | (.ok _, db', _) =>
              let st := { st with db := db' }
              (st, .cont st.running)
      | .error _ =>
          let st := { st with invalid_message_count := st.invalid_message_count + 1 }
          if st.invalid_message_count > INVALID_MESSAGE_THRESHOLD then
            handle_invalid_messages st
          else
            (st, .cont st.running)
  | .Ping _ =>
      let st := { st with invalid_message_count := 0 }
      (st, .cont st.running)
  | .Close _ =>
      let st := { st with invalid_message_count := 0, running := false }
      (st, .cont st.running)
  | .Binary _ =>
      let st := { st with invalid_message_count := st.invalid_message_count + 1 }
      if st.invalid_message_count > INVALID_MESSAGE_THRESHOLD then
        handle_invalid_messages st
      else
        (st, .cont st.running)
  | .Pong _ =>
      let st := { st with invalid_message_count := st.invalid_message_count + 1 }
      if st.invalid_message_count > INVALID_MESSAGE_THRESHOLD then
        handle_invalid_messages st
      else
        (st, .cont st.running)

/-- The `take_while … for_each` pipeline over the session's incoming
frames (each paired with the clock and uuid oracle values for its
processing).  Returns the final state, the stream result, and how many
frames were actually read from the stream. -/
def read_loop (dec : SerdeDecoder) :
    SessionState → List (Frame × Nat × String) →
    SessionState × Except AppAuthHandlerError Unit × Nat
  | st, [] => (st, .ok (), 0)
  | st, (f, now, fid) :: rest =>
    match take_while_step dec now fid st f with
    | (st', .fail e) => (st', .error e, 1)
    | (st', .cont false) => (st', .ok (), 1)
    | (st', .cont true) =>
        let r := read_loop dec st' rest
        (r.1, r.2.1, r.2.2 + 1)

/-! ## Session establishment (`prepare_request` up to the read loop) -/

/-- The coordination service's answer to the upgrade handshake.
Modelled from the spec (§6): the connection becomes a framed stream only
after an HTTP 101 switching-protocols response; `hyper`'s `on_upgrade`
future resolves to the upgraded connection when the upgrade happened and
to an error otherwise.  `upgrade = some frames` carries the frames the
upgraded stream will yield. -/
structure HttpResponse where
  status : Nat
  upgrade : Option (List (Frame × Nat × String))
  deriving DecidableEq, Repr

/-- Observable outcome of one `prepare_request` future. -/
structure SessionRun where
  result : Except AppAuthHandlerError Unit
  sink_handed_off : Bool
  frames_read : Nat
  final : SessionState
  deriving DecidableEq, Repr

/-- Mirrors `prepare_request` from the arrival of the handshake response: a
non-upgraded response makes `on_upgrade` fail (mapped to `ClientError`);
on upgrade the connection is split, the sink is sent to the manager
thread over `tx_closing` (a disconnected channel is a `StartUpError`),
and the read loop runs with a fresh invalid-message counter.  The
source's status check only logs, so the status does not branch here. -/
def prepare_request (dec : SerdeDecoder) (res : HttpResponse)
    (tx_closing_connected : Bool) (st0 : SessionState) : SessionRun :=
  match res.upgrade with
  | none =>
      { result := .error (.ClientError "upgrade failed")
        sink_handed_off := false
        frames_read := 0
        final := st0 }
  | some frames =>
      if tx_closing_connected then
        let r := read_loop dec { st0 with invalid_message_count := 0 } frames
        { result := r.2.1
          sink_handed_off := true
          frames_read := r.2.2
          final := r.1 }
      else
        { result := .error (.StartUpError "Unable to send send join handler addr")
          sink_handed_off := false
          frames_read := 0
          final := st0 }

/-! ## The two worker threads of `run`

Each loop iteration consumes an oracle event describing what the
environment did (what `try_recv` yielded, whether the runtime started,
what the driven future returned, the shared flags observed).  The
wrapper after each loop is the source's
`if result.is_err() { running.store(false, SeqCst) }`; the `Bool`
component records whether the thread stored `false` into the shared
running flag on exit. -/

/-- One iteration's environment for the execution-loop (client) thread:
`recvStopped` is `try_recv` returning `Ok(None)` (running observed
false), `recvDisconnected` is the channel reporting disconnection, and
`work` is a received request future together with whether
`Runtime::new()` succeeded, the future's result under `block_on`, and
the running flag observed after it. -/
inductive ClientEvent where
  | recvStopped
  | recvDisconnected
  | work (runtime_ok : Bool) (future_result : Except AppAuthHandlerError Unit)
      (running_after : Bool)
  deriving DecidableEq, Repr

/-- The execution-loop body of the client thread in `run`. -/
def client_loop : List ClientEvent → Except AppAuthHandlerError Unit
  | [] => .ok ()
  | e :: rest =>
    match e with
    | .recvStopped => .ok ()
    | .recvDisconnected => .error (.ShutdownError "Unable to receive sink")
    | .work runtime_ok future_result running_after =>
      if runtime_ok then
        match future_result with
        | .error err => .error err
        | .ok _ => if running_after then client_loop rest else .ok ()
      else
        .error (.IoError "Runtime creation failed")

/-- Whether the thread wrapper stores `false` into the shared running
flag: exactly when the loop result is an error. -/
def clears_running : Except AppAuthHandlerError Unit → Bool
  | .error _ => true
  | .ok _ => false

/-- The client thread: the loop plus its error-to-flag wrapper. -/
def client_thread (events : List ClientEvent) :
    Except AppAuthHandlerError Unit × Bool :=
  let result := client_loop events
  (result, clears_running result)

/-- One iteration's environment for the connection-manager thread:
the two `try_recv` calls (sink, then close message) may stop the loop or
report disconnection; `iter` is a full iteration with both received,
carrying whether `sink.send(msg).wait()` succeeded, the reconnect flag,
the running flag before and after the backoff sleep, and whether
`tx_future.send` succeeded. -/
inductive ManagerEvent where
  | sinkStopped
  | sinkDisconnected
  | msgStopped
  | msgDisconnected
  | iter (send_ok : Bool) (reconnect : Bool) (running_before_sleep : Bool)
      (running_after_sleep : Bool) (tx_future_ok : Bool)
  deriving DecidableEq, Repr

/-- The connection-manager loop body in `run`. -/
def connection_manager_loop : List ManagerEvent → Except AppAuthHandlerError Unit
  | [] => .ok ()
  | e :: rest =>
    match e with
    | .sinkStopped => .ok ()
    | .sinkDisconnected => .error (.ShutdownError "Unable to receive sink")
    | .msgStopped => .ok ()
    | .msgDisconnected => .error (.ShutdownError "Unable to receive sink")
    | .iter send_ok reconnect running_before_sleep running_after_sleep tx_future_ok =>
      if send_ok then
        if !reconnect || !running_before_sleep then .ok ()
        else if !running_after_sleep then .ok ()
        else if tx_future_ok then connection_manager_loop rest
        else .error (.StartUpError "Unable to send reconnect request message")
      else
        .error (.ShutdownError "Unable to send close message to server")

/-- The connection-manager thread: the loop plus its error-to-flag
wrapper. -/
def connection_manager_thread (events : List ManagerEvent) :
    Except AppAuthHandlerError Unit × Bool :=
  let result := connection_manager_loop events
  (result, clears_running result)

/-! ## Derived predicates and concrete fixtures used in the statements -/

/-- The rows the pending-proposal lookup ranges over: proposals with the
given circuit id and `Pending` status, in store order. -/
def pending_filter (db : Database) (circuit_id : String) : List CircuitProposal :=
  db.proposals.filter fun p =>
    decide (p.circuit_id = circuit_id) && decide (p.status = "Pending")

/-- Is this write a member-rows insert? -/
def is_members_insert : WriteOp → Bool
  | .insertMembers _ => true
  | _ => false

/-- Is this write a service-rows insert? -/
def is_services_insert : WriteOp → Bool
  | .insertServices _ => true
  | _ => false

/-- Does the trace insert the member rows strictly before the service
rows? -/
def members_before_services (tr : List WriteOp) : Bool :=
  match tr.findIdx? is_members_insert, tr.findIdx? is_services_insert with
  | some i, some j => decide (i < j)
  | _, _ => false

/-- The close message `handle_invalid_messages` sends. -/
def close_unsupported_msg : Message :=
  .Close (some { code := CloseCode.Unsupported
                 description := some "Received too many invalid messages" })

/-- A frame the read loop counts as invalid: a text frame whose payload
the codec rejects, or any frame of the `_` catch-all arm. -/
def frame_is_invalid (dec : SerdeDecoder) : Frame → Bool
  | .Text msg =>
      match parse_message_bytes dec (msg.getD []) with
      | .error _ => true
      | .ok _ => false
  | .Binary _ => true
  | .Pong _ => true
  | .Ping _ => false
  | .Close _ => false

/-- Did the driven request future succeed? -/
def future_result_ok : Except AppAuthHandlerError Unit → Bool
  | .ok _ => true
  | .error _ => false

/-- A client-thread iteration that keeps the execution loop looping:
runtime started, the driven future succeeded, running still observed
true afterwards. -/
def client_event_continues : ClientEvent → Bool
  | .work runtime_ok future_result running_after =>
      runtime_ok && future_result_ok future_result && running_after
  | _ => false

/-- A client-thread iteration that is a fatal internal error: the work
queue disconnected, the runtime failed to start, or the driven future
failed. -/
def client_event_fatal : ClientEvent → Bool
  | .recvDisconnected => true
  | .work runtime_ok future_result _ => !runtime_ok || !future_result_ok future_result
  | _ => false

/-- A manager-thread iteration that keeps the loop looping: the close
frame was sent, reconnect requested, running observed true before and
after the backoff, and the reconnect request was enqueued. -/
def manager_event_continues : ManagerEvent → Bool
  | .iter send_ok reconnect r1 r2 tx_ok => send_ok && reconnect && r1 && r2 && tx_ok
  | _ => false

/-- A manager-thread iteration that is a fatal internal error: a queue
disconnected, the close-frame send failed, or the reconnect-request send
failed (the latter is reached only when the loop was going to continue). -/
def manager_event_fatal : ManagerEvent → Bool
  | .sinkDisconnected => true
  | .msgDisconnected => true
  | .iter send_ok reconnect r1 r2 tx_ok =>
      !send_ok || (reconnect && r1 && r2 && !tx_ok)
  | _ => false

/-- Fixture mirroring the repository's test service entry. -/
def testService : SplinterService :=
  { service_id := "scabbard_123", service_type := "scabbard",
    allowed_nodes := ["acme_corp"] }

/-- Fixture mirroring the repository's test member node. -/
def testNode : SplinterNode :=
  { node_id := "Node-123", endpoint := "127.0.0.1:8282" }

/-- Fixture mirroring the repository's test `CreateCircuit`. -/
def testCircuit (circuit_id : String) : CreateCircuit :=
  { circuit_id := circuit_id, roster := [testService], members := [testNode],
    authorization_type := "Trust", persistence := "Any", routes := "Any",
    circuit_management_type := "gameroom", application_metadata := [] }

/-- Fixture mirroring the repository's test wire proposal. -/
def testMsgProposal (circuit_id : String) : MsgCircuitProposal :=
  { proposal_type := "Create", circuit_id := circuit_id,
    circuit_hash := "8e066d41", circuit := testCircuit circuit_id,
    votes := [], requester := "acme_corp" }

/-- A persisted pending proposal row built like the test fixture. -/
def testProposal (proposal_id circuit_id : String) (t : Nat) : CircuitProposal :=
  parse_proposal (testMsgProposal circuit_id) proposal_id t

/-- The empty store. -/
def emptyDb : Database :=
  { proposals := [], members := [], services := [], votes := [] }

/-- A store holding exactly one pending proposal for `my_circuit`. -/
def dbWithPending : Database :=
  { emptyDb with proposals := [testProposal "my_proposal" "my_circuit" 5] }

/-- A store holding two pending proposals for the same circuit id (a
prior invariant violation). -/
def dbTwoPending : Database :=
  { emptyDb with proposals :=
      [testProposal "p1" "my_circuit" 1, testProposal "p2" "my_circuit" 2] }

/-- A structural decoder that rejects every payload. -/
def decFail : SerdeDecoder := fun _ => .error "malformed"

/-- A fresh session state: counter zero, running, no reconnect request,
live manager channel, nothing sent, empty store. -/
def freshSession : SessionState :=
  { invalid_message_count := 0, running := true, reconnect := false,
    sender_connected := true, sent := [], db := emptyDb }

/-- A test ballot (vote to accept `my_circuit`). -/
def testBallot : Ballot :=
  { circuit_id := "my_circuit", circuit_hash := "8e066d41", vote := .Accept }

/-- A test cast ballot whose signer key is valid UTF-8. -/
def testVoteMsg : CircuitProposalVote :=
  { ballot := testBallot, ballot_signature := [65, 65, 65],
    signer_public_key := [73, 119, 65, 65, 65, 81] }

/-- A test cast ballot whose signer key is not valid UTF-8. -/
def testVoteMsgBadKey : CircuitProposalVote :=
  { ballot := testBallot, ballot_signature := [65, 65, 65],
    signer_public_key := [0xFF] }

/-- A structural decoder that accepts every payload as a fixed event. -/
def decOk1 : SerdeDecoder :=
  fun _ => .ok (.ProposalAccepted (testMsgProposal "my_circuit"))

/-- A session state sitting exactly at the invalid-message threshold. -/
def sessionAtThreshold : SessionState :=
  { freshSession with invalid_message_count := 10 }

/-! ## Theorems -/

/-- C5: for every byte payload, the codec fails with the empty-message
kind (`InvalidMessageError "Received empty message"`, the spec's
`EmptyMessage`) when the payload has zero length, fails with the
structural-decode kind (`SerdeError`, the spec's `MalformedPayload`)
when JSON decoding fails, and otherwise returns the decoded event.  It
is a pure function of the decoder and the bytes, hence stateless and
side-effect-free. -/
theorem C5_codec_contract (dec : SerdeDecoder) (bytes : List Nat) :
    (bytes = [] →
      parse_message_bytes dec bytes =
        .error (.InvalidMessageError "Received empty message")) ∧
    (∀ e, bytes ≠ [] → dec bytes = .error e →
      parse_message_bytes dec bytes = .error (.SerdeError e)) ∧
    (∀ admin_event, bytes ≠ [] → dec bytes = .ok admin_event →
      parse_message_bytes dec bytes = .ok admin_event) := by
  refine ⟨fun h => ?_, fun e hne hd => ?_, fun ev hne hd => ?_⟩
  · subst h; rfl
  · simp [parse_message_bytes, hne, hd]
  · simp [parse_message_bytes, hne, hd]

/-- C5 witness: the contract evaluated at concrete decoders and
payloads. -/
theorem C5_codec_contract_witness :
    parse_message_bytes decFail [] =
      .error (.InvalidMessageError "Received empty message") ∧
    parse_message_bytes decFail [1] = .error (.SerdeError "malformed") ∧
    parse_message_bytes decOk1 [1] =
      .ok (.ProposalAccepted (testMsgProposal "my_circuit")) :=
  ⟨(C5_codec_contract decFail []).1 rfl,
   (C5_codec_contract decFail [1]).2.1 "malformed" (by decide) rfl,
   (C5_codec_contract decOk1 [1]).2.2 _ (by decide) rfl⟩

/-- C4 counterexample: a store with two `Pending` rows for the same
circuit id.  The claim says the lookup must fail on more than one match;
instead it succeeds and returns the first matching row. -/
theorem C4_counterexample :
    (pending_filter dbTwoPending "my_circuit").length = 2 ∧
    get_pending_proposal_with_circuit_id dbTwoPending "my_circuit" =
      .ok (testProposal "p1" "my_circuit" 1) := by decide

/-- C4 amended: the lookup used by `ProposalVote`, `ProposalAccepted`
and `ProposalRejected` fails exactly when zero rows have
`status=Pending` and the given circuit id; when one or more rows match
it returns the first matching row in store order (it does not fail
loudly on duplicates). -/
theorem C4_amended_lookup (db : Database) (circuit_id : String) :
    ((∃ e, get_pending_proposal_with_circuit_id db circuit_id = .error e) ↔
      ∀ p ∈ db.proposals, ¬(p.circuit_id = circuit_id ∧ p.status = "Pending")) ∧
    ∀ p, (pending_filter db circuit_id).head? = some p →
      get_pending_proposal_with_circuit_id db circuit_id = .ok p := by
  have hdef : get_pending_proposal_with_circuit_id db circuit_id =
      (match (pending_filter db circuit_id).head? with
        | some p => .ok p
        | none => .error (.DatabaseError
            ("Could not find open proposal for circuit: " ++ circuit_id))) := rfl
  constructor
  · rw [hdef]
    cases h : (pending_filter db circuit_id).head? with
    | none =>
      rw [List.head?_eq_none_iff] at h
      constructor
      · intro _ p hp hpend
        have hmem : p ∈ pending_filter db circuit_id :=
          List.mem_filter.mpr ⟨hp, by simp [hpend.1, hpend.2]⟩
        rw [h] at hmem
        exact absurd hmem (List.not_mem_nil p)
      · intro _
        exact ⟨_, rfl⟩
    | some q =>
      constructor
      · rintro ⟨e, he⟩
        exact absurd he (by simp)
      · intro hall
        exfalso
        have hq : q ∈ pending_filter db circuit_id := List.mem_of_mem_head? (h ▸ rfl)
        have := List.mem_filter.mp hq
        exact hall q this.1 (by simpa using this.2)
  · intro p hp
    rw [hdef, hp]

/-- C4 amended witness: the lookup at an empty store (error) and at a
store with exactly one pending row (that row). -/
theorem C4_amended_lookup_witness :
    (∃ e, get_pending_proposal_with_circuit_id emptyDb "my_circuit" = .error e) ∧
    get_pending_proposal_with_circuit_id dbWithPending "my_circuit" =
      .ok (testProposal "my_proposal" "my_circuit" 5) :=
  ⟨(C4_amended_lookup emptyDb "my_circuit").1.mpr (by decide),
   (C4_amended_lookup dbWithPending "my_circuit").2 _ (by decide)⟩

/-- C2 counterexample: a concrete `ProposalSubmitted` event.  The
transaction does insert member rows and service rows, but the service
rows are inserted before the member rows, not after as the claim
states. -/
theorem C2_counterexample :
    (process_admin_event (.ProposalSubmitted (testMsgProposal "my_circuit")) 7 "fresh-id"
        emptyDb).1 = .ok () ∧
    (process_admin_event (.ProposalSubmitted (testMsgProposal "my_circuit")) 7 "fresh-id"
        emptyDb).2.2.any is_members_insert = true ∧
    (process_admin_event (.ProposalSubmitted (testMsgProposal "my_circuit")) 7 "fresh-id"
        emptyDb).2.2.any is_services_insert = true ∧
    members_before_services
      (process_admin_event (.ProposalSubmitted (testMsgProposal "my_circuit")) 7 "fresh-id"
        emptyDb).2.2 = false := by decide

/-- C2 amended: for every `ProposalSubmitted` event the applier uses the
locally generated fresh identifier as the proposal id, sets
`status=Pending` and `created_time=updated_time=now`, and inserts the
proposal row, then its service rows, then its member rows, in that
order, inside one transaction. -/
theorem C2_amended_submit (msg : MsgCircuitProposal) (now : Nat) (fresh_id : String)
    (db : Database) :
    process_admin_event (.ProposalSubmitted msg) now fresh_id db =
      (.ok (),
       { proposals := db.proposals ++ [parse_proposal msg fresh_id now]
         members := db.members ++ parse_splinter_nodes fresh_id msg.circuit.members
         services := db.services ++ parse_splinter_services fresh_id msg.circuit.roster
         votes := db.votes },
       [.insertProposal (parse_proposal msg fresh_id now),
        .insertServices (parse_splinter_services fresh_id msg.circuit.roster),
        .insertMembers (parse_splinter_nodes fresh_id msg.circuit.members)]) ∧
    (parse_proposal msg fresh_id now).status = "Pending" ∧
    (parse_proposal msg fresh_id now).created_time = now ∧
    (parse_proposal msg fresh_id now).updated_time = now ∧
    (parse_proposal msg fresh_id now).id = fresh_id := by
  refine ⟨?_, rfl, rfl, rfl, rfl⟩
  simp [process_admin_event, transaction, insert_circuit_proposal, insert_circuit_service,
    insert_circuit_member]

/-- C3 counterexample: a fresh session fed twelve consecutive invalid
text frames.  The threshold is exceeded at the eleventh frame, yet the
twelfth frame is still read (twelve frames consumed, not eleven), and a
second close request is even sent for it — the session does not stop
reading after requesting the close. -/
theorem C3_counterexample :
    (read_loop decFail freshSession
        (List.replicate 12 ((Frame.Text none : Frame), 0, ""))).2.2 = 12 ∧
    (read_loop decFail freshSession
        (List.replicate 12 ((Frame.Text none : Frame), 0, ""))).1.reconnect = true ∧
    (read_loop decFail freshSession
        (List.replicate 12 ((Frame.Text none : Frame), 0, ""))).1.sent =
      [close_unsupported_msg, close_unsupported_msg] ∧
    (read_loop decFail freshSession
        (List.replicate 12 ((Frame.Text none : Frame), 0, ""))).2.1 = .ok () := by decide

/-- C3 amended: whenever an invalid frame pushes the consecutive
invalid-message counter above the threshold of 10 (and the manager
channel is alive), the read-loop step sends one close control frame with
the unsupported-code reason "Received too many invalid messages" and
sets the reconnect flag — but it returns `future::ok(true)`, so the
session keeps reading; reading stops only when the running flag is
cleared or the stream ends. -/
theorem C3_amended_threshold (dec : SerdeDecoder) (now : Nat) (fresh_id : String)
    (st : SessionState) (f : Frame)
    (hconn : st.sender_connected = true)
    (hinv : frame_is_invalid dec f = true)
    (hcount : INVALID_MESSAGE_THRESHOLD ≤ st.invalid_message_count) :
    take_while_step dec now fresh_id st f =
      ({ st with invalid_message_count := st.invalid_message_count + 1
                 reconnect := true
                 sent := st.sent ++ [close_unsupported_msg] }, .cont true) := by
  have hgt : st.invalid_message_count + 1 > INVALID_MESSAGE_THRESHOLD := by omega
  cases f with
  | Text msg =>
    simp only [frame_is_invalid] at hinv
    cases hp : parse_message_bytes dec (msg.getD []) with
    | ok _ => rw [hp] at hinv; exact absurd hinv (by simp)
    | error e =>
      simp only [take_while_step, hp]
      rw [if_pos hgt]
      simp [handle_invalid_messages, hconn, close_unsupported_msg]
  | Binary msg =>
    simp only [take_while_step]
    rw [if_pos hgt]
    simp [handle_invalid_messages, hconn, close_unsupported_msg]
  | Ping msg => simp [frame_is_invalid] at hinv
  | Pong msg =>
    simp only [take_while_step]
    rw [if_pos hgt]
    simp [handle_invalid_messages, hconn, close_unsupported_msg]
  | Close reason => simp [frame_is_invalid] at hinv

/-- C3 amended witness: the threshold step at a session whose counter is
exactly 10, on an invalid (empty) text frame. -/
theorem C3_amended_threshold_witness :
    take_while_step decFail 0 "" sessionAtThreshold (Frame.Text none) =
      ({ sessionAtThreshold with invalid_message_count := 11
                                 reconnect := true
                                 sent := [close_unsupported_msg] }, .cont true) :=
  C3_amended_threshold decFail 0 "" sessionAtThreshold (Frame.Text none)
    rfl rfl (by decide)

/-- Shared helper: when the pending rows for a circuit id are exactly
`[p]`, the lookup returns `p`. -/
theorem get_pending_of_filter_singleton (db : Database) (circuit_id : String)
    (p : CircuitProposal) (hp : pending_filter db circuit_id = [p]) :
    get_pending_proposal_with_circuit_id db circuit_id = .ok p := by
  have hfetch : fetch_circuit_proposal_with_status db circuit_id "Pending" = some p := by
    show (pending_filter db circuit_id).head? = some p
    rw [hp]; rfl
  simp [get_pending_proposal_with_circuit_id, hfetch]

/-- Shared helper: when no row is pending for the circuit id, the lookup
fails with the missing-proposal error. -/
theorem get_pending_of_no_match (db : Database) (circuit_id : String)
    (h : ∀ p ∈ db.proposals, ¬(p.circuit_id = circuit_id ∧ p.status = "Pending")) :
    get_pending_proposal_with_circuit_id db circuit_id =
      .error (.DatabaseError ("Could not find open proposal for circuit: " ++ circuit_id)) := by
  have hnil : pending_filter db circuit_id = [] := by
    refine List.filter_eq_nil_iff.mpr fun p hp => ?_
    have := h p hp
    simp only [Bool.and_eq_true, decide_eq_true_eq]
    intro hc
    exact this ⟨hc.1, hc.2⟩
  have hfetch : fetch_circuit_proposal_with_status db circuit_id "Pending" = none := by
    show (pending_filter db circuit_id).head? = none
    rw [hnil]; rfl
  simp [get_pending_proposal_with_circuit_id, hfetch]

/-- C1: applying a `ProposalVote` when the pending rows for the ballot's
circuit id are exactly one row `p` (and the signer key decodes) succeeds,
appends exactly one vote record, leaves the proposal `Pending`, and the
vote record's `created_time` equals the proposal's refreshed
`updated_time` exactly — both are the single `SystemTime::now()` value
taken for the event. -/
theorem C1_vote_append_timestamps (msg_vote : CircuitProposalVote) (now : Nat)
    (fresh_id : String) (db : Database) (p : CircuitProposal)
    (hp : pending_filter db msg_vote.ballot.circuit_id = [p])
    (hkey : utf8_valid msg_vote.signer_public_key = true) :
    (process_admin_event (.ProposalVote msg_vote) now fresh_id db).1 = .ok () ∧
    (process_admin_event (.ProposalVote msg_vote) now fresh_id db).2.1.votes =
      db.votes ++ [{ proposal_id := p.id
                     voter_public_key := msg_vote.signer_public_key
                     vote := vote_debug msg_vote.ballot.vote
                     created_time := now }] ∧
    ∃ p', p' ∈ (process_admin_event (.ProposalVote msg_vote) now fresh_id db).2.1.proposals ∧
      p'.id = p.id ∧ p'.status = "Pending" ∧ p'.updated_time = now ∧
      ({ proposal_id := p.id
         voter_public_key := msg_vote.signer_public_key
         vote := vote_debug msg_vote.ballot.vote
         created_time := now } : NewProposalVoteRecord).created_time = p'.updated_time := by
  have hget := get_pending_of_filter_singleton db msg_vote.ballot.circuit_id p hp
  have hpm : p ∈ db.proposals := by
    have : p ∈ pending_filter db msg_vote.ballot.circuit_id := by rw [hp]; exact List.mem_singleton.mpr rfl
    exact (List.mem_filter.mp this).1
  have hrun : process_admin_event (.ProposalVote msg_vote) now fresh_id db =
      (.ok (),
       { db with
          proposals := db.proposals.map fun q =>
            if q.id = p.id then { q with status := "Pending", updated_time := now } else q
          votes := db.votes ++ [{ proposal_id := p.id
                                  voter_public_key := msg_vote.signer_public_key
                                  vote := vote_debug msg_vote.ballot.vote
                                  created_time := now }] },
       [.updateStatus p.id now "Pending",
        .insertVotes [{ proposal_id := p.id
                        voter_public_key := msg_vote.signer_public_key
                        vote := vote_debug msg_vote.ballot.vote
                        created_time := now }]]) := by
    simp [process_admin_event, hget, string_from_utf8, hkey, transaction,
      update_circuit_proposal_status, insert_proposal_vote_record]
  refine ⟨by rw [hrun], by rw [hrun], ?_⟩
  refine ⟨{ p with status := "Pending", updated_time := now }, ?_, rfl, rfl, rfl, rfl⟩
  rw [hrun]
  have := List.mem_map_of_mem
    (fun q => if q.id = p.id then { q with status := "Pending", updated_time := now } else q) hpm
  simpa using this

/-- C1 witness: the vote applied to a store with one pending proposal
for `my_circuit`. -/
theorem C1_vote_append_timestamps_witness :
    (process_admin_event (.ProposalVote testVoteMsg) 9 "f" dbWithPending).1 = .ok () ∧
    (process_admin_event (.ProposalVote testVoteMsg) 9 "f" dbWithPending).2.1.votes =
      [{ proposal_id := "my_proposal"
         voter_public_key := [73, 119, 65, 65, 65, 81]
         vote := "Accept"
         created_time := 9 }] ∧
    ∃ p', p' ∈ (process_admin_event (.ProposalVote testVoteMsg) 9 "f" dbWithPending).2.1.proposals ∧
      p'.id = "my_proposal" ∧ p'.status = "Pending" ∧ p'.updated_time = 9 ∧
      ({ proposal_id := "my_proposal"
         voter_public_key := [73, 119, 65, 65, 65, 81]
         vote := "Accept"
         created_time := 9 } : NewProposalVoteRecord).created_time = p'.updated_time := by
  have h := C1_vote_append_timestamps testVoteMsg 9 "f" dbWithPending
    (testProposal "my_proposal" "my_circuit" 5) (by decide) (by decide)
  exact h

/-- C6: a `ProposalVote`, `ProposalAccepted` or `ProposalRejected`
targeting a circuit id with no `Pending` proposal fails with the
missing-pending-proposal error (the spec's `NoPendingProposal`,
rendered by the source as `DatabaseError "Could not find open proposal
for circuit: <id>"`), and the store is returned unchanged with no write
issued. -/
theorem C6_no_pending_fails_unchanged (now : Nat) (fresh_id : String) (db : Database)
    (circuit_id : String)
    (h : ∀ p ∈ db.proposals, ¬(p.circuit_id = circuit_id ∧ p.status = "Pending")) :
    (∀ msg_vote : CircuitProposalVote, msg_vote.ballot.circuit_id = circuit_id →
      process_admin_event (.ProposalVote msg_vote) now fresh_id db =
        (.error (.DatabaseError ("Could not find open proposal for circuit: " ++ circuit_id)),
         db, [])) ∧
    (∀ msg : MsgCircuitProposal, msg.circuit_id = circuit_id →
      process_admin_event (.ProposalAccepted msg) now fresh_id db =
        (.error (.DatabaseError ("Could not find open proposal for circuit: " ++ circuit_id)),
         db, []) ∧
      process_admin_event (.ProposalRejected msg) now fresh_id db =
        (.error (.DatabaseError ("Could not find open proposal for circuit: " ++ circuit_id)),
         db, [])) := by
  have hget := get_pending_of_no_match db circuit_id h
  refine ⟨fun msg_vote hc => ?_, fun msg hc => ⟨?_, ?_⟩⟩
  · subst hc; simp [process_admin_event, hget]
  · subst hc; simp [process_admin_event, hget]
  · subst hc; simp [process_admin_event, hget]

/-- C6 witness: the three events against the empty store. -/
theorem C6_no_pending_fails_unchanged_witness :
    process_admin_event (.ProposalVote testVoteMsg) 9 "f" emptyDb =
      (.error (.DatabaseError "Could not find open proposal for circuit: my_circuit"),
       emptyDb, []) ∧
    process_admin_event (.ProposalAccepted (testMsgProposal "my_circuit")) 9 "f" emptyDb =
      (.error (.DatabaseError "Could not find open proposal for circuit: my_circuit"),
       emptyDb, []) := by
  have h := C6_no_pending_fails_unchanged 9 "f" emptyDb "my_circuit" (by decide)
  exact ⟨h.1 testVoteMsg rfl, (h.2 (testMsgProposal "my_circuit") rfl).1⟩

/-- C7: applying `ProposalAccepted` (resp. `ProposalRejected`) when the
pending rows for the event's circuit id are exactly one row `p` issues a
single update that sets that proposal's status to `Accepted` (resp.
`Rejected`) and its `updated_time` to the current clock value — strictly
larger than the old `updated_time` under the monotone-clock premise —
and changes nothing else: the remaining tables are untouched and every
proposal row with a different id is mapped to itself. -/
theorem C7_accept_reject_single_update (now : Nat) (fresh_id : String) (db : Database)
    (p : CircuitProposal) (msg : MsgCircuitProposal)
    (hp : pending_filter db msg.circuit_id = [p])
    (ht : p.updated_time < now) :
    (process_admin_event (.ProposalAccepted msg) now fresh_id db =
      (.ok (),
       { db with proposals := db.proposals.map fun q =>
           if q.id = p.id then { q with status := "Accepted", updated_time := now } else q },
       [.updateStatus p.id now "Accepted"]) ∧
     ∃ p', p' ∈ (process_admin_event (.ProposalAccepted msg) now fresh_id db).2.1.proposals ∧
       p'.id = p.id ∧ p'.status = "Accepted" ∧ p.updated_time < p'.updated_time) ∧
    (process_admin_event (.ProposalRejected msg) now fresh_id db =
      (.ok (),
       { db with proposals := db.proposals.map fun q =>
           if q.id = p.id then { q with status := "Rejected", updated_time := now } else q },
       [.updateStatus p.id now "Rejected"]) ∧
     ∃ p', p' ∈ (process_admin_event (.ProposalRejected msg) now fresh_id db).2.1.proposals ∧
       p'.id = p.id ∧ p'.status = "Rejected" ∧ p.updated_time < p'.updated_time) := by
  have hget := get_pending_of_filter_singleton db msg.circuit_id p hp
  have hpm : p ∈ db.proposals := by
    have : p ∈ pending_filter db msg.circuit_id := by rw [hp]; exact List.mem_singleton.mpr rfl
    exact (List.mem_filter.mp this).1
  have hacc : process_admin_event (.ProposalAccepted msg) now fresh_id db =
      (.ok (),
       { db with proposals := db.proposals.map fun q =>
           if q.id = p.id then { q with status := "Accepted", updated_time := now } else q },
       [.updateStatus p.id now "Accepted"]) := by
    simp [process_admin_event, hget, update_circuit_proposal_status]
  have hrej : process_admin_event (.ProposalRejected msg) now fresh_id db =
      (.ok (),
       { db with proposals := db.proposals.map fun q =>
           if q.id = p.id then { q with status := "Rejected", updated_time := now } else q },
       [.updateStatus p.id now "Rejected"]) := by
    simp [process_admin_event, hget, update_circuit_proposal_status]
  refine ⟨⟨hacc, ?_⟩, hrej, ?_⟩
  · refine ⟨{ p with status := "Accepted", updated_time := now }, ?_, rfl, rfl, ht⟩
    rw [hacc]
    have := List.mem_map_of_mem
      (fun q => if q.id = p.id then { q with status := "Accepted", updated_time := now } else q) hpm
    simpa using this
  · refine ⟨{ p with status := "Rejected", updated_time := now }, ?_, rfl, rfl, ht⟩
    rw [hrej]
    have := List.mem_map_of_mem
      (fun q => if q.id = p.id then { q with status := "Rejected", updated_time := now } else q) hpm
    simpa using this

/-- C7 witness: accept and reject against a store with one pending
proposal last updated at time 5, applied at time 9. -/
theorem C7_accept_reject_single_update_witness :
    process_admin_event (.ProposalAccepted (testMsgProposal "my_circuit")) 9 "f" dbWithPending =
      (.ok (),
       { dbWithPending with proposals := dbWithPending.proposals.map fun q =>
           if q.id = "my_proposal" then { q with status := "Accepted", updated_time := 9 } else q },
       [.updateStatus "my_proposal" 9 "Accepted"]) ∧
    process_admin_event (.ProposalRejected (testMsgProposal "my_circuit")) 9 "f" dbWithPending =
      (.ok (),
       { dbWithPending with proposals := dbWithPending.proposals.map fun q =>
           if q.id = "my_proposal" then { q with status := "Rejected", updated_time := 9 } else q },
       [.updateStatus "my_proposal" 9 "Rejected"]) := by
  have h := C7_accept_reject_single_update 9 "f" dbWithPending
    (testProposal "my_proposal" "my_circuit" 5) (testMsgProposal "my_circuit")
    (by decide) (by decide)
  exact ⟨h.1.1, h.2.1⟩

/-- C8: if the coordination service answers the handshake with anything
other than HTTP 101 (and hence, per the HTTP upgrade semantics of the
external interface, provides no upgraded connection), the session fails
with a `ClientError`: the connection is never split, no sink is handed
off, and no frame is read. -/
theorem C8_handshake_fail_fast (dec : SerdeDecoder) (res : HttpResponse)
    (tx_closing_connected : Bool) (st0 : SessionState)
    (hhttp : res.status ≠ 101 → res.upgrade = none)
    (hstatus : res.status ≠ 101) :
    prepare_request dec res tx_closing_connected st0 =
      { result := .error (.ClientError "upgrade failed")
        sink_handed_off := false
        frames_read := 0
        final := st0 } := by
  simp [prepare_request, hhttp hstatus]

/-- C8 witness: a 400 response with no upgrade. -/
theorem C8_handshake_fail_fast_witness :
    prepare_request decFail { status := 400, upgrade := none } true freshSession =
      { result := .error (.ClientError "upgrade failed")
        sink_handed_off := false
        frames_read := 0
        final := freshSession } :=
  C8_handshake_fail_fast decFail { status := 400, upgrade := none } true freshSession
    (fun _ => rfl) (by decide)

/-- C10: a `ProposalVote` whose signer public key is not valid UTF-8
fails with the UTF-8 conversion error even though a pending proposal
exists for the ballot's circuit id, and the store is returned unchanged
with no write issued — the key is decoded before the transaction
begins. -/
theorem C10_invalid_utf8_key (msg_vote : CircuitProposalVote) (now : Nat)
    (fresh_id : String) (db : Database) (p : CircuitProposal)
    (hp : pending_filter db msg_vote.ballot.circuit_id = [p])
    (hkey : utf8_valid msg_vote.signer_public_key = false) :
    process_admin_event (.ProposalVote msg_vote) now fresh_id db =
      (.error .Utf8Error, db, []) := by
  have hget := get_pending_of_filter_singleton db msg_vote.ballot.circuit_id p hp
  simp [process_admin_event, hget, string_from_utf8, hkey]

/-- C10 witness: the bad-key ballot against the store with one pending
proposal. -/
theorem C10_invalid_utf8_key_witness :
    process_admin_event (.ProposalVote testVoteMsgBadKey) 9 "f" dbWithPending =
      (.error .Utf8Error, dbWithPending, []) :=
  C10_invalid_utf8_key testVoteMsgBadKey 9 "f" dbWithPending
    (testProposal "my_proposal" "my_circuit" 5) (by decide) (by decide)

/-- Shared helper: the execution loop runs past any prefix of
continuing iterations. -/
theorem client_loop_append_of_continues (pre rest : List ClientEvent)
    (h : pre.all client_event_continues = true) :
    client_loop (pre ++ rest) = client_loop rest := by
  induction pre with
  | nil => rfl
  | cons e pre ih =>
    rw [List.all_cons, Bool.and_eq_true] at h
    obtain ⟨h1, h2⟩ := h
    cases e with
    | recvStopped => simp [client_event_continues] at h1
    | recvDisconnected => simp [client_event_continues] at h1
    | work runtime_ok future_result running_after =>
      simp only [client_event_continues, Bool.and_eq_true] at h1
      obtain ⟨⟨hrok, hfres⟩, hra⟩ := h1
      subst hrok hra
      cases future_result with
      | error err => simp [future_result_ok] at hfres
      | ok u =>
        show client_loop (ClientEvent.work true (.ok u) true :: (pre ++ rest)) = _
        simp only [client_loop, if_true]
        exact ih h2

/-- Shared helper: the connection-manager loop runs past any prefix of
continuing iterations. -/
theorem manager_loop_append_of_continues (pre rest : List ManagerEvent)
    (h : pre.all manager_event_continues = true) :
    connection_manager_loop (pre ++ rest) = connection_manager_loop rest := by
  induction pre with
  | nil => rfl
  | cons e pre ih =>
    rw [List.all_cons, Bool.and_eq_true] at h
    obtain ⟨h1, h2⟩ := h
    cases e with
    | sinkStopped => simp [manager_event_continues] at h1
    | sinkDisconnected => simp [manager_event_continues] at h1
    | msgStopped => simp [manager_event_continues] at h1
    | msgDisconnected => simp [manager_event_continues] at h1
    | iter send_ok reconnect r1 r2 tx_ok =>
      simp only [manager_event_continues, Bool.and_eq_true] at h1
      obtain ⟨⟨⟨⟨hs, hr⟩, h1'⟩, h2'⟩, h3'⟩ := h1
      subst hs hr h1' h2' h3'
      show connection_manager_loop (ManagerEvent.iter true true true true true :: (pre ++ rest)) = _
      simp only [connection_manager_loop]
      simpa using ih h2

/-- C9: after any number of continuing iterations, if the execution loop
(resp. the connection-manager loop) hits a fatal internal error — its
work queue disconnected, the runtime failed to start, the driven future
failed, a close-frame or reconnect-request send failed — the loop exits
with an error and its thread wrapper stores `false` into the shared
running flag before terminating, so the sibling loop also winds down. -/
theorem C9_fatal_error_clears_running
    (preC postC : List ClientEvent) (preM postM : List ManagerEvent)
    (hC : preC.all client_event_continues = true)
    (hM : preM.all manager_event_continues = true) :
    (∀ e : ClientEvent, client_event_fatal e = true →
      (∃ err, (client_thread (preC ++ e :: postC)).1 = .error err) ∧
      (client_thread (preC ++ e :: postC)).2 = true) ∧
    (∀ e : ManagerEvent, manager_event_fatal e = true →
      (∃ err, (connection_manager_thread (preM ++ e :: postM)).1 = .error err) ∧
      (connection_manager_thread (preM ++ e :: postM)).2 = true) := by
  constructor
  · intro e hfatal
    have hloop : ∃ err, client_loop (e :: postC) = .error err := by
      cases e with
      | recvStopped => simp [client_event_fatal] at hfatal
      | recvDisconnected => exact ⟨_, rfl⟩
      | work runtime_ok future_result running_after =>
        cases runtime_ok with
        | false => exact ⟨.IoError "Runtime creation failed", by simp [client_loop]⟩
        | true =>
          cases future_result with
          | error err => exact ⟨err, by simp [client_loop]⟩
          | ok u => simp [client_event_fatal, future_result_ok] at hfatal
    obtain ⟨err, herr⟩ := hloop
    have hall : client_loop (preC ++ e :: postC) = .error err := by
      rw [client_loop_append_of_continues preC _ hC, herr]
    refine ⟨⟨err, hall⟩, ?_⟩
    show clears_running (client_loop (preC ++ e :: postC)) = true
    rw [hall]; rfl
  · intro e hfatal
    have hloop : ∃ err, connection_manager_loop (e :: postM) = .error err := by
      cases e with
      | sinkStopped => simp [manager_event_fatal] at hfatal
      | sinkDisconnected => exact ⟨_, rfl⟩
      | msgStopped => simp [manager_event_fatal] at hfatal
      | msgDisconnected => exact ⟨_, rfl⟩
      | iter send_ok reconnect r1 r2 tx_ok =>
        cases send_ok with
        | false =>
          exact ⟨.ShutdownError "Unable to send close message to server",
            by simp [connection_manager_loop]⟩
        | true =>
          simp only [manager_event_fatal, Bool.not_true, Bool.false_or,
            Bool.and_eq_true, Bool.not_eq_true'] at hfatal
          obtain ⟨⟨⟨hr, h1'⟩, h2'⟩, h3'⟩ := hfatal
          subst hr h1' h2' h3'
          exact ⟨.StartUpError "Unable to send reconnect request message",
            by simp [connection_manager_loop]⟩
    obtain ⟨err, herr⟩ := hloop
    have hall : connection_manager_loop (preM ++ e :: postM) = .error err := by
      rw [manager_loop_append_of_continues preM _ hM, herr]
    refine ⟨⟨err, hall⟩, ?_⟩
    show clears_running (connection_manager_loop (preM ++ e :: postM)) = true
    rw [hall]; rfl

/-- C9 witness: a queue disconnection after one successful client
iteration, and a failed close-frame send after one successful manager
iteration. -/
theorem C9_fatal_error_clears_running_witness :
    (∃ err, (client_thread [ClientEvent.work true (.ok ()) true,
        ClientEvent.recvDisconnected]).1 = .error err) ∧
    (client_thread [ClientEvent.work true (.ok ()) true,
        ClientEvent.recvDisconnected]).2 = true ∧
    (∃ err, (connection_manager_thread [ManagerEvent.iter true true true true true,
        ManagerEvent.iter false true true true true]).1 = .error err) ∧
    (connection_manager_thread [ManagerEvent.iter true true true true true,
        ManagerEvent.iter false true true true true]).2 = true := by
  have h := C9_fatal_error_clears_running [ClientEvent.work true (.ok ()) true] []
    [ManagerEvent.iter true true true true true] [] (by decide) (by decide)
  have hc := h.1 ClientEvent.recvDisconnected (by decide)
  have hm := h.2 (ManagerEvent.iter false true true true true) (by decide)
  exact ⟨hc.1, hc.2, hm.1, hm.2⟩

end Gameroom
